import Mathlib

/-!
Shallow embedding of `src/auto_login.py` (the n8n auto-login relay) and
proofs about its cookie handling, login caching, header filtering,
error responses and startup health check.

Python dictionaries of cookies / headers are modelled as association
lists of strings; `Dict.insert` has the semantics of `d[k] = v`
(replace in place, else append), so `Dict.merge a b` is Python's
`{**a, **b}` (entries of `b` win on key collision).
-/

set_option autoImplicit false

namespace AutoLogin

/-- A Python `dict` of strings, as an association list (first binding wins
on lookup; well-formed dicts have `Nodup` keys). -/
abbrev Dict := List (String × String)

namespace Dict

/-- Python `d[k]`, as an `Option`. -/
def get (d : Dict) (k : String) : Option String :=
  (d.find? (fun kv => kv.1 == k)).map (fun kv => kv.2)

/-- Python `k in d`. -/
def hasKey (d : Dict) (k : String) : Bool :=
  d.any (fun kv => kv.1 == k)

/-- Python `d[k] = v`: replace the binding in place if the key is
present, otherwise append the new binding. -/
def insert (d : Dict) (k : String) (v : String) : Dict :=
  match d with
  | [] => [(k, v)]
  | kv :: t => if kv.1 == k then (k, v) :: t else kv :: insert t k v

/-- Python `{**a, **b}` / `a.update(b)`: entries of `b` win. -/
def merge (a b : Dict) : Dict :=
  b.foldl (fun acc kv => insert acc kv.1 kv.2) a

/-- The list of keys of a dict. -/
def keys (d : Dict) : List String :=
  d.map (fun kv => kv.1)

theorem get_insert_self (d : Dict) (k v : String) :
    (insert d k v).get k = some v := by
  induction d with
  | nil => simp [insert, get, List.find?]
  | cons kv t ih =>
    by_cases h : kv.1 == k
    · simp [insert, h, get, List.find?]
    · simp only [insert, h, if_false]
      simpa [get, List.find?, h] using ih

theorem get_insert_ne (d : Dict) (k k' v : String) (hk : k' ≠ k) :
    (insert d k v).get k' = d.get k' := by
  have hkk : (k == k') = false := by
    simpa using Ne.symm hk
  induction d with
  | nil => simp [insert, get, List.find?, hkk]
  | cons kv t ih =>
    by_cases h : (kv.1 == k) = true
    · have hkv : kv.1 = k := by simpa using h
      have hkv' : (kv.1 == k') = false := by
        simpa [hkv] using Ne.symm hk
      simp [insert, h, get, List.find?, hkk, hkv']
    · simp only [insert, h, if_false]
      by_cases h' : (kv.1 == k') = true
      · simp [get, List.find?, h']
      · simpa [get, List.find?, h'] using ih

theorem get_eq_none_of_not_mem_keys (d : Dict) (k : String)
    (h : k ∉ d.keys) : d.get k = none := by
  induction d with
  | nil => rfl
  | cons kv t ih =>
    have hmem : ¬(k = kv.1 ∨ k ∈ keys t) := by
      simpa [keys] using h
    have h1 : (kv.1 == k) = false := by
      simp only [beq_eq_false_iff_ne, ne_eq]
      exact fun hh => hmem (Or.inl hh.symm)
    have h2 : k ∉ keys t := fun hh => hmem (Or.inr hh)
    simpa [get, List.find?, h1] using ih h2

/-- Merged lookup, key absent from `b`: fall back to `a`. -/
theorem get_merge_of_none :
    ∀ (b a : Dict) (k : String), b.get k = none →
      (merge a b).get k = a.get k := by
  intro b
  induction b with
  | nil => intro a k _; rfl
  | cons kv t ih =>
    intro a k h
    have hsplit : (kv.1 == k) = false ∧ get t k = none := by
      by_cases hc : (kv.1 == k) = true
      · exact absurd h (by simp [get, List.find?, hc])
      · exact ⟨by simpa using hc,
          by simpa [get, List.find?, hc] using h⟩
    have hm : merge a (kv :: t) = merge (insert a kv.1 kv.2) t := rfl
    rw [hm, ih _ _ hsplit.2]
    exact get_insert_ne a kv.1 k kv.2
      (fun hh => by simp [hh] at hsplit)

/-- Merged lookup, key bound in `b`: the entry of `b` wins.  (`b` must
have no duplicate keys, as every Python dict does.) -/
theorem get_merge_of_some :
    ∀ (b a : Dict), b.keys.Nodup → ∀ (k v : String), b.get k = some v →
      (merge a b).get k = some v := by
  intro b
  induction b with
  | nil => intro a _ k v h; simp [get] at h
  | cons kv t ih =>
    intro a hb k v h
    have hnd : kv.1 ∉ keys t ∧ (keys t).Nodup := by
      simpa [keys] using hb
    have hm : merge a (kv :: t) = merge (insert a kv.1 kv.2) t := rfl
    by_cases hc : (kv.1 == k) = true
    · have hk : kv.1 = k := by simpa using hc
      have hv : some kv.2 = some v := by
        simpa [get, List.find?, hc] using h
      have htn : get t k = none :=
        get_eq_none_of_not_mem_keys t k (hk ▸ hnd.1)
      rw [hm, get_merge_of_none _ _ _ htn, ← hv, hk]
      exact get_insert_self a k kv.2
    · have ht : get t k = some v := by
        simpa [get, List.find?, hc] using h
      rw [hm]
      exact ih (insert a kv.1 kv.2) hnd.2 k v ht

end Dict

/-- Boolean infix test on character lists (Python's `in` on strings). -/
def charsContain (s pat : List Char) : Bool :=
  match s with
  | [] => pat.isEmpty
  | _ :: t => pat.isPrefixOf s || charsContain t pat

/-- Python `pat in s` for strings. -/
def strContains (s pat : String) : Bool :=
  charsContain s.data pat.data

/-- Python `k.lower()`, as a character list (the names the relay tests
against are ASCII, where `Char.toLower` agrees with `str.lower`). -/
def lowerChars (s : String) : List Char :=
  s.data.map Char.toLower

/-- The cookie-name heuristic of `check_authentication` (line 104):
`'auth' in k.lower() or 'session' in k.lower() or 'n8n' in k.lower()`. -/
def isAuthCookieName (k : String) : Bool :=
  charsContain (lowerChars k) "auth".data ||
    charsContain (lowerChars k) "session".data ||
    charsContain (lowerChars k) "n8n".data

/-- `check_authentication(cookies)` (lines 98-116).  The outcome of the
confirmatory `GET /rest/me`, were it made, is supplied as `meStatus`
(`none` = the request raised).  Returns the boolean result together with
the number of network calls performed. -/
def check_authentication (meStatus : Option Nat) (cookies : Dict) :
    Bool × Nat :=
  if cookies.isEmpty then (false, 0)
  else if (cookies.filter (fun kv => isAuthCookieName kv.1)).isEmpty then
    (false, 0)
  else
    match meStatus with
    | some st => (st == 200, 1)
    | none => (false, 1)

/-- The relay's module-level mutable state (lines 26-27):
`session_cookies = {}` and `login_attempted = False`. -/
structure RelayState where
  session_cookies : Dict
  login_attempted : Bool
  deriving Repr, DecidableEq

/-- The upstream's answer to a `POST /rest/login`, were the request made:
`none` models a raised exception, `some (status, cookies)` a response
with its cookie jar. -/
abbrev LoginResp := Option (Nat × Dict)

/-- `auto_login()` (lines 50-95) as a state transition.  Returns the
Python return value (`None` or the cookie dict), the new relay state,
and the number of `POST /rest/login` requests performed (0 or 1).

The cache hit test mirrors Python truthiness: `login_attempted and
session_cookies` requires a non-empty dict.  On a 200 response the two
cookie-extraction loops (lines 80-84) both write the response cookies
into `session_cookies`, so the net effect is one dict update. -/
def auto_login (resp : LoginResp) (st : RelayState) :
    Option Dict × RelayState × Nat :=
  if st.login_attempted && !st.session_cookies.isEmpty then
    (some st.session_cookies, st, 0)
  else
    match resp with
    | none => (none, st, 1)
    | some (status, cookies) =>
      if status == 200 then
        let sc := Dict.merge st.session_cookies cookies
        (some sc, ⟨sc, true⟩, 1)
      else
        (none, st, 1)

/-- Two consecutive `auto_login()` calls with no intervening state
change; returns both results, the final state, and the total number of
`POST /rest/login` requests. -/
def auto_login_twice (resp1 resp2 : LoginResp) (st : RelayState) :
    Option Dict × Option Dict × RelayState × Nat :=
  let r1 := auto_login resp1 st
  let r2 := auto_login resp2 r1.2.1
  (r1.1, r2.1, r2.2.1, r1.2.2 + r2.2.2)

/-- The upstream's answers to the polls of `wait_for_n8n`: attempt `i`'s
`GET /healthz` yields `none` (request raised) or `some status`. -/
abbrev HealthOracle := Nat → Option Nat

/-- One run of the retry loop of `wait_for_n8n` (lines 33-44) starting
at iteration `i` with `max_retries - i` iterations left.  Returns the
function's result, the number of `GET /healthz` attempts performed from
iteration `i` on, and the total seconds slept (`time.sleep(2)` runs
after every failed attempt except the last, line 42-44). -/
def wait_loop (o : HealthOracle) (max_retries : Nat) :
    (fuel : Nat) → (i : Nat) → Bool × Nat × Nat
  | 0, _ => (false, 0, 0)
  | fuel + 1, i =>
    if o i = some 200 then
      (true, 1, 0)
    else
      let sleep := if i < max_retries - 1 then 2 else 0
      let rest := wait_loop o max_retries fuel (i + 1)
      (rest.1, rest.2.1 + 1, rest.2.2 + sleep)

/-- `wait_for_n8n()` (lines 30-47): poll `GET {base_url}/healthz` up to
30 times; return `True` on the first HTTP 200, else `False`. -/
def wait_for_n8n (o : HealthOracle) : Bool × Nat × Nat :=
  wait_loop o 30 30 0

/-- The top-level actions of the `__main__` block (lines 242-254), in
program order. -/
inductive MainStep where
  | waitForN8n
  | autoLogin
  | runServer
  deriving Repr, DecidableEq

/-- The `__main__` block (lines 242-254): wait for n8n, attempt an
initial login, then start the Flask server. -/
def main_steps : List MainStep :=
  [MainStep.waitForN8n, MainStep.autoLogin, MainStep.runServer]

/-- An exception raised while forwarding the request (lines 167-205):
`transport = true` models a `requests` transport failure (connection
refused, timeout), `transport = false` any other unexpected exception.
The handler at lines 237-239 catches bare `Exception`, so it receives
both kinds. -/
structure FwdError where
  transport : Bool
  msg : String
  deriving Repr, DecidableEq

/-- The upstream response to the forwarded request (`resp`). -/
structure UpstreamResp where
  status : Nat
  headers : Dict
  cookies : Dict
  content : String
  deriving Repr, DecidableEq

/-- One `response.set_cookie(...)` call made by the relay. -/
structure SetCookie where
  name : String
  value : String
  samesite : String
  deriving Repr, DecidableEq

/-- The relay's response to the caller. -/
structure ProxyResponse where
  status : Nat
  headers : Dict
  setCookies : List SetCookie
  body : String
  deriving Repr, DecidableEq

/-- The upstream's behaviour during one `proxy()` call: the status of
the confirmatory `GET /rest/me` (were it made), the login response
(were a login POSTed), and the outcome of the forwarded request. -/
structure Upstream where
  meStatus : Option Nat
  loginResp : LoginResp
  fwd : Except FwdError UpstreamResp

/-- Everything observable about one `proxy()` call: the response to the
caller, the relay state afterwards, the cookie dict forwarded upstream,
the outbound request headers, and the number of login POSTs made. -/
structure ProxyTrace where
  response : ProxyResponse
  state : RelayState
  forwardedCookies : Dict
  outboundHeaders : Dict
  loginPosts : Nat

/-- Lines 126-144: judge the caller's cookies, auto-login if needed, and
produce `merged_cookies`.  Returns `is_authenticated`, the merged cookie
dict, the relay state after this phase, and the login POST count. -/
def proxy_auth_phase (env : Upstream) (incoming : Dict) (st : RelayState) :
    Bool × Dict × RelayState × Nat :=
  let is_authenticated := (check_authentication env.meStatus incoming).1
  if is_authenticated then
    (true, incoming,
      ⟨Dict.merge st.session_cookies incoming, st.login_attempted⟩, 0)
  else
    let r := auto_login env.loginResp st
    match r.1 with
    | some c => (false, Dict.merge incoming c, r.2.1, r.2.2)
    | none => (false, incoming, r.2.1, r.2.2)

/-- Line 163: `'; '.join([f"{k}={v}" for k, v in merged_cookies.items()])`. -/
def cookie_header (d : Dict) : String :=
  String.intercalate "; " (d.map (fun kv => kv.1 ++ "=" ++ kv.2))

/-- The header names dropped from the outbound request (line 159). -/
def banned_request_headers : List (List Char) :=
  ["host".data, "connection".data, "content-length".data]

/-- Lines 157-160: copy the caller's headers, excluding the banned ones
case-insensitively. -/
def filter_request_headers (hs : Dict) : Dict :=
  hs.filter (fun kv => !(banned_request_headers.contains (lowerChars kv.1)))

/-- Lines 157-165: the headers actually sent upstream (filtered caller
headers, plus a `Cookie` header when the merged dict is non-empty). -/
def outbound_headers (hs merged : Dict) : Dict :=
  let h := filter_request_headers hs
  if cookie_header merged == "" then h
  else Dict.insert h "Cookie" (cookie_header merged)

/-- The header names dropped from the relayed response (line 212). -/
def banned_response_headers : List (List Char) :=
  ["content-encoding".data, "transfer-encoding".data, "content-length".data,
    "connection".data]

/-- Lines 211-213: copy the upstream response headers, excluding the
banned ones case-insensitively. -/
def filter_response_headers (hs : Dict) : Dict :=
  hs.filter (fun kv => !(banned_response_headers.contains (lowerChars kv.1)))

/-- `proxy(path)` (lines 119-239) as a function of the caller's headers
and cookies, the relay state, and the upstream behaviour. -/
def proxy (env : Upstream) (reqHeaders incoming : Dict) (st : RelayState) :
    ProxyTrace :=
  let auth := proxy_auth_phase env incoming st
  let is_authenticated := auth.1
  let merged_cookies := auth.2.1
  let st1 := auth.2.2.1
  let outHdrs := outbound_headers reqHeaders merged_cookies
  match env.fwd with
  | Except.error e =>
    { response := ⟨502, [], [], "Proxy error: " ++ e.msg⟩
      state := st1
      forwardedCookies := merged_cookies
      outboundHeaders := outHdrs
      loginPosts := auth.2.2.2 }
  | Except.ok resp =>
    let st2 : RelayState :=
      ⟨Dict.merge st1.session_cookies resp.cookies, st1.login_attempted⟩
    let fromUpstream :=
      resp.cookies.map (fun kv => SetCookie.mk kv.1 kv.2 "Lax")
    let extra :=
      if !is_authenticated && !st2.session_cookies.isEmpty then
        (st2.session_cookies.filter
            (fun kv => !(resp.cookies.map (fun c => c.1)).contains kv.1)).map
          (fun kv => SetCookie.mk kv.1 kv.2 "Lax")
      else []
    { response := ⟨resp.status, filter_response_headers resp.headers,
        fromUpstream ++ extra, resp.content⟩
      state := st2
      forwardedCookies := merged_cookies
      outboundHeaders := outHdrs
      loginPosts := auth.2.2.2 }

/-! Sanity checks of the embedding on concrete inputs. -/

example : isAuthCookieName "N8N-Auth" = true := by decide
example : isAuthCookieName "my-session-id" = true := by decide
example : isAuthCookieName "theme" = false := by decide
example : check_authentication (some 200) [("theme", "dark")] = (false, 0) := by
  decide
example : check_authentication (some 200) [("n8n-auth", "x")] = (true, 1) := by
  decide
example : check_authentication (some 401) [("n8n-auth", "x")] = (false, 1) := by
  decide
example :
    auto_login (some (200, [("a", "2"), ("b", "3")])) ⟨[], false⟩ =
      (some [("a", "2"), ("b", "3")], ⟨[("a", "2"), ("b", "3")], true⟩, 1) := by
  decide
example :
    auto_login (some (401, [("a", "2")])) ⟨[], false⟩ = (none, ⟨[], false⟩, 1) := by
  decide
example :
    Dict.merge [("a", "1")] [("a", "2"), ("b", "3")] = [("a", "2"), ("b", "3")] := by
  decide

/-! Helper lemmas relating `proxy` to its phases. -/

theorem proxy_forwardedCookies (env : Upstream) (reqHeaders incoming : Dict)
    (st : RelayState) :
    (proxy env reqHeaders incoming st).forwardedCookies =
      (proxy_auth_phase env incoming st).2.1 := by
  unfold proxy
  cases env.fwd <;> rfl

theorem proxy_loginPosts (env : Upstream) (reqHeaders incoming : Dict)
    (st : RelayState) :
    (proxy env reqHeaders incoming st).loginPosts =
      (proxy_auth_phase env incoming st).2.2.2 := by
  unfold proxy
  cases env.fwd <;> rfl

theorem proxy_outboundHeaders (env : Upstream) (reqHeaders incoming : Dict)
    (st : RelayState) :
    (proxy env reqHeaders incoming st).outboundHeaders =
      outbound_headers reqHeaders (proxy_auth_phase env incoming st).2.1 := by
  unfold proxy
  cases env.fwd <;> rfl

theorem proxy_response_of_error (env : Upstream) (reqHeaders incoming : Dict)
    (st : RelayState) (e : FwdError) (h : env.fwd = Except.error e) :
    (proxy env reqHeaders incoming st).response =
      ⟨502, [], [], "Proxy error: " ++ e.msg⟩ := by
  unfold proxy
  rw [h]

theorem proxy_state_of_ok (env : Upstream) (reqHeaders incoming : Dict)
    (st : RelayState) (resp : UpstreamResp) (h : env.fwd = Except.ok resp) :
    (proxy env reqHeaders incoming st).state =
      ⟨Dict.merge (proxy_auth_phase env incoming st).2.2.1.session_cookies
          resp.cookies,
        (proxy_auth_phase env incoming st).2.2.1.login_attempted⟩ := by
  unfold proxy
  rw [h]

theorem proxy_response_of_ok (env : Upstream) (reqHeaders incoming : Dict)
    (st : RelayState) (resp : UpstreamResp) (h : env.fwd = Except.ok resp) :
    (proxy env reqHeaders incoming st).response =
      ⟨resp.status, filter_response_headers resp.headers,
        resp.cookies.map (fun kv => SetCookie.mk kv.1 kv.2 "Lax") ++
          (if (!(proxy_auth_phase env incoming st).1 &&
                !((proxy env reqHeaders incoming st).state.session_cookies).isEmpty)
              = true then
            ((proxy env reqHeaders incoming st).state.session_cookies.filter
                (fun kv =>
                  !(resp.cookies.map (fun c => c.1)).contains kv.1)).map
              (fun kv => SetCookie.mk kv.1 kv.2 "Lax")
          else []),
        resp.content⟩ := by
  rw [proxy_state_of_ok env reqHeaders incoming st resp h]
  unfold proxy
  rw [h]

theorem proxy_auth_phase_of_auth (env : Upstream) (incoming : Dict)
    (st : RelayState)
    (h : (check_authentication env.meStatus incoming).1 = true) :
    proxy_auth_phase env incoming st =
      (true, incoming,
        ⟨Dict.merge st.session_cookies incoming, st.login_attempted⟩, 0) := by
  simp only [proxy_auth_phase, h, if_true]

theorem proxy_auth_phase_of_unauth_some (env : Upstream) (incoming : Dict)
    (st : RelayState) (c : Dict)
    (h : (check_authentication env.meStatus incoming).1 = false)
    (hl : (auto_login env.loginResp st).1 = some c) :
    proxy_auth_phase env incoming st =
      (false, Dict.merge incoming c, (auto_login env.loginResp st).2.1,
        (auto_login env.loginResp st).2.2) := by
  simp only [proxy_auth_phase, h, Bool.false_eq_true, if_false, hl]

theorem proxy_auth_phase_of_unauth_none (env : Upstream) (incoming : Dict)
    (st : RelayState)
    (h : (check_authentication env.meStatus incoming).1 = false)
    (hl : (auto_login env.loginResp st).1 = none) :
    proxy_auth_phase env incoming st =
      (false, incoming, (auto_login env.loginResp st).2.1,
        (auto_login env.loginResp st).2.2) := by
  simp only [proxy_auth_phase, h, Bool.false_eq_true, if_false, hl]

/-- C2: for every cookie set in which no cookie name contains
(case-insensitively) `auth`, `session` or the platform name `n8n`,
`check_authentication` returns false without making any network call; it
returns true only when such a cookie name exists and the confirmatory
`GET {base_url}/rest/me` with the forwarded cookies returned HTTP 200. -/
theorem c2_check_authentication_gate (meStatus : Option Nat)
    (cookies : Dict) :
    ((∀ kv ∈ cookies, isAuthCookieName kv.1 = false) →
      check_authentication meStatus cookies = (false, 0)) ∧
    ((check_authentication meStatus cookies).1 = true →
      (∃ kv ∈ cookies, isAuthCookieName kv.1 = true) ∧
        meStatus = some 200) := by
  constructor
  · intro h
    unfold check_authentication
    by_cases he : cookies.isEmpty = true
    · rw [if_pos he]
    · rw [if_neg he, if_pos]
      rw [List.isEmpty_iff, List.filter_eq_nil_iff]
      intro kv hkv
      simp [h kv hkv]
  · intro h
    unfold check_authentication at h
    by_cases he : cookies.isEmpty = true
    · rw [if_pos he] at h
      simp at h
    · rw [if_neg he] at h
      by_cases hf :
        (cookies.filter (fun kv => isAuthCookieName kv.1)).isEmpty = true
      · rw [if_pos hf] at h
        simp at h
      · rw [if_neg hf] at h
        refine ⟨?_, ?_⟩
        · obtain ⟨kv, hkv⟩ := List.exists_mem_of_ne_nil
            (cookies.filter (fun kv => isAuthCookieName kv.1))
            (fun hnil => hf (by rw [hnil]; rfl))
          exact ⟨kv, (List.mem_filter.mp hkv).1,
            (List.mem_filter.mp hkv).2⟩
        · cases meStatus with
          | none => simp at h
          | some stc =>
            simp only [beq_iff_eq] at h
            exact congrArg some h

/-- Witness for C2: a cookie dict with no auth-like name short-circuits
to `(false, 0)` even though `/rest/me` would answer 200, and a true
verdict on `n8n-auth` implies a matching name and a 200 from
`/rest/me`. -/
theorem c2_check_authentication_gate_witness :
    check_authentication (some 200) [("theme", "dark")] = (false, 0) ∧
    ((∃ kv ∈ ([("n8n-auth", "x")] : Dict), isAuthCookieName kv.1 = true) ∧
      (some 200 : Option Nat) = some 200) :=
  ⟨(c2_check_authentication_gate (some 200) [("theme", "dark")]).1
      (by decide),
    (c2_check_authentication_gate (some 200) [("n8n-auth", "x")]).2
      (by decide)⟩

/-- C1: for every inbound request whose caller cookies are judged not
authenticated and for which `auto_login` returns a cookie dict, the
cookie dict forwarded upstream is the caller's cookies updated with the
login cookies, the login cookies winning on every key collision; in
particular caller cookies `a=1` with login cookies `a=2, b=3` forward as
`a=2, b=3`. -/
theorem c1_unauth_merge (env : Upstream) (reqHeaders incoming : Dict)
    (st : RelayState) (lc : Dict)
    (hauth : (check_authentication env.meStatus incoming).1 = false)
    (hlogin : (auto_login env.loginResp st).1 = some lc) :
    (proxy env reqHeaders incoming st).forwardedCookies =
      Dict.merge incoming lc ∧
    (lc.keys.Nodup → ∀ k v, lc.get k = some v →
      ((proxy env reqHeaders incoming st).forwardedCookies).get k = some v) ∧
    (∀ k, lc.get k = none →
      ((proxy env reqHeaders incoming st).forwardedCookies).get k =
        incoming.get k) ∧
    Dict.merge [("a", "1")] [("a", "2"), ("b", "3")] =
      [("a", "2"), ("b", "3")] := by
  have hfc : (proxy env reqHeaders incoming st).forwardedCookies =
      Dict.merge incoming lc := by
    rw [proxy_forwardedCookies,
      proxy_auth_phase_of_unauth_some env incoming st lc hauth hlogin]
  refine ⟨hfc, ?_, ?_, by decide⟩
  · intro hnd k v hk
    rw [hfc]
    exact Dict.get_merge_of_some lc incoming hnd k v hk
  · intro k hk
    rw [hfc]
    exact Dict.get_merge_of_none lc incoming k hk

/-- Witness for C1: caller cookie `a=1`, freshly fetched login cookies
`a=2, b=3`; the forwarded dict is `a=2, b=3`. -/
theorem c1_unauth_merge_witness :
    (proxy ⟨none, some (200, [("a", "2"), ("b", "3")]),
        Except.error ⟨true, "refused"⟩⟩ [] [("a", "1")]
        ⟨[], false⟩).forwardedCookies = [("a", "2"), ("b", "3")] := by
  have h := c1_unauth_merge ⟨none, some (200, [("a", "2"), ("b", "3")]),
      Except.error ⟨true, "refused"⟩⟩ [] [("a", "1")] ⟨[], false⟩
      [("a", "2"), ("b", "3")] (by decide) (by decide)
  rw [h.1]
  decide

/-- C4: when the caller's cookies pass the authentication check, the
cookie dict forwarded upstream is exactly the caller's (no cached login
cookies merged in, no login POST), and the shared session cache is
updated from the caller's cookies. -/
theorem c4_authenticated_passthrough (env : Upstream)
    (reqHeaders incoming : Dict) (st : RelayState)
    (hauth : (check_authentication env.meStatus incoming).1 = true) :
    (proxy env reqHeaders incoming st).forwardedCookies = incoming ∧
    (proxy env reqHeaders incoming st).loginPosts = 0 ∧
    (proxy_auth_phase env incoming st).2.2.1.session_cookies =
      Dict.merge st.session_cookies incoming ∧
    (incoming.keys.Nodup → ∀ k v, incoming.get k = some v →
      ((proxy_auth_phase env incoming st).2.2.1.session_cookies).get k =
        some v) := by
  have hap := proxy_auth_phase_of_auth env incoming st hauth
  refine ⟨?_, ?_, ?_, ?_⟩
  · rw [proxy_forwardedCookies, hap]
  · rw [proxy_loginPosts, hap]
  · rw [hap]
  · intro hnd k v hk
    rw [hap]
    exact Dict.get_merge_of_some incoming st.session_cookies hnd k v hk

/-- Witness for C4: an authenticated caller's cookie dict is forwarded
verbatim and lands in the session cache. -/
theorem c4_authenticated_passthrough_witness :
    (proxy ⟨some 200, none, Except.error ⟨true, "refused"⟩⟩ []
        [("n8n-auth", "x")] ⟨[("old", "1")], true⟩).forwardedCookies =
      [("n8n-auth", "x")] ∧
    (proxy_auth_phase ⟨some 200, none, Except.error ⟨true, "refused"⟩⟩
        [("n8n-auth", "x")] ⟨[("old", "1")], true⟩).2.2.1.session_cookies =
      [("old", "1"), ("n8n-auth", "x")] := by
  have h := c4_authenticated_passthrough
    ⟨some 200, none, Except.error ⟨true, "refused"⟩⟩ []
    [("n8n-auth", "x")] ⟨[("old", "1")], true⟩ (by decide)
  refine ⟨h.1, ?_⟩
  rw [h.2.2.1]
  decide

/-! Helper lemmas for `auto_login`. -/

theorem auto_login_of_cached (resp : LoginResp) (st : RelayState)
    (hhit : (st.login_attempted && !st.session_cookies.isEmpty) = true) :
    auto_login resp st = (some st.session_cookies, st, 0) := by
  simp only [auto_login, hhit, if_true]

theorem auto_login_of_cold (resp : LoginResp) (st : RelayState)
    (hcold : (st.login_attempted && !st.session_cookies.isEmpty) = false) :
    auto_login resp st =
      match resp with
      | none => (none, st, 1)
      | some (status, cookies) =>
        if status == 200 then
          (some (Dict.merge st.session_cookies cookies),
            ⟨Dict.merge st.session_cookies cookies, true⟩, 1)
        else (none, st, 1) := by
  simp only [auto_login, hcold, Bool.false_eq_true, if_false]

/-- C3 counterexample: two consecutive `auto_login()` calls with no
intervening cache invalidation perform two upstream POSTs, not one, when
the upstream login rejects the credentials (status 401). -/
theorem c3_counterexample :
    (auto_login_twice (some (401, [])) (some (401, []))
        ⟨[], false⟩).2.2.2 = 2 ∧
    ¬ (auto_login_twice (some (401, [])) (some (401, []))
        ⟨[], false⟩).2.2.2 = 1 := by
  decide

/-- C3 (amended): starting from a state with no cached session, two
consecutive `auto_login()` calls perform exactly one upstream POST
provided the first call succeeds with a non-empty cookie dict (a failed
first login makes the second call POST again); and whenever a session is
already cached, `auto_login` returns the cached cookie dict without
re-authenticating. -/
theorem c3_login_idempotent (resp1 resp2 : LoginResp) (st : RelayState)
    (c : Dict)
    (hcold : (st.login_attempted && !st.session_cookies.isEmpty) = false)
    (h1 : (auto_login resp1 st).1 = some c) (hne : c.isEmpty = false) :
    (auto_login_twice resp1 resp2 st).2.2.2 = 1 ∧
    (auto_login_twice resp1 resp2 st).2.1 = some c ∧
    (∀ (st' : RelayState) (resp : LoginResp),
      (st'.login_attempted && !st'.session_cookies.isEmpty) = true →
      auto_login resp st' = (some st'.session_cookies, st', 0)) := by
  have hc := auto_login_of_cold resp1 st hcold
  cases resp1 with
  | none =>
    rw [hc] at h1
    cases h1
  | some p =>
    obtain ⟨s, ck⟩ := p
    by_cases hs : (s == 200) = true
    · have h200 : auto_login (some (s, ck)) st =
          (some (Dict.merge st.session_cookies ck),
            ⟨Dict.merge st.session_cookies ck, true⟩, 1) := by
        rw [hc]
        simp [hs]
      have hcval : Dict.merge st.session_cookies ck = c := by
        rw [h200] at h1
        exact Option.some.inj h1
      rw [hcval] at h200
      have hsecond : auto_login resp2 ⟨c, true⟩ = (some c, ⟨c, true⟩, 0) :=
        auto_login_of_cached resp2 ⟨c, true⟩ (by simp [hne])
      refine ⟨?_, ?_, fun st' resp hhit => auto_login_of_cached resp st' hhit⟩
      · simp [auto_login_twice, h200, hsecond]
      · simp [auto_login_twice, h200, hsecond]
    · exfalso
      have hno : auto_login (some (s, ck)) st = (none, st, 1) := by
        rw [hc]
        simp [hs]
      rw [hno] at h1
      cases h1

/-- Witness for C3 (amended): a cold start whose first login succeeds
with one cookie; the second call performs no POST. -/
theorem c3_login_idempotent_witness :
    (auto_login_twice (some (200, [("n8n-auth", "tok")])) none
        ⟨[], false⟩).2.2.2 = 1 ∧
    (auto_login_twice (some (200, [("n8n-auth", "tok")])) none
        ⟨[], false⟩).2.1 = some [("n8n-auth", "tok")] ∧
    (∀ (st' : RelayState) (resp : LoginResp),
      (st'.login_attempted && !st'.session_cookies.isEmpty) = true →
      auto_login resp st' = (some st'.session_cookies, st', 0)) :=
  c3_login_idempotent (some (200, [("n8n-auth", "tok")])) none ⟨[], false⟩
    [("n8n-auth", "tok")] (by decide) (by decide) (by decide)

/-- C9: a failing `auto_login` is atomic with respect to relay state:
whenever it returns `None` the session-cookie cache and the
`login_attempted` flag are exactly as before, and with no cached session
a non-200 login response or a raised request both yield
`(None, unchanged state)`. -/
theorem c9_login_failure_atomic (resp : LoginResp) (st : RelayState) :
    ((auto_login resp st).1 = none → (auto_login resp st).2.1 = st) ∧
    ((st.login_attempted && !st.session_cookies.isEmpty) = false →
      ∀ (s : Nat) (ck : Dict), resp = some (s, ck) → ¬ s = 200 →
        auto_login resp st = (none, st, 1)) ∧
    ((st.login_attempted && !st.session_cookies.isEmpty) = false →
      resp = none → auto_login resp st = (none, st, 1)) := by
  refine ⟨?_, ?_, ?_⟩
  · intro hnone
    by_cases hhit : (st.login_attempted && !st.session_cookies.isEmpty) = true
    · rw [auto_login_of_cached resp st hhit] at hnone
      cases hnone
    · have hcold := auto_login_of_cold resp st (by simpa using hhit)
      cases resp with
      | none => rw [hcold]
      | some p =>
        by_cases hs : (p.1 == 200) = true
        · exfalso
          rw [hcold] at hnone
          simp [hs] at hnone
        · rw [hcold]
          simp [hs]
  · intro hcold s ck hresp hs
    subst hresp
    rw [auto_login_of_cold _ st hcold]
    simp [hs]
  · intro hcold hresp
    subst hresp
    rw [auto_login_of_cold none st hcold]

/-- Witness for C9: a 500 login response and a raised login request both
leave the state `(cache = old, login_attempted = false)` untouched. -/
theorem c9_login_failure_atomic_witness :
    auto_login (some (500, [("x", "1")])) ⟨[("old", "1")], false⟩ =
      (none, ⟨[("old", "1")], false⟩, 1) ∧
    auto_login none ⟨[("old", "1")], false⟩ =
      (none, ⟨[("old", "1")], false⟩, 1) :=
  ⟨(c9_login_failure_atomic (some (500, [("x", "1")]))
      ⟨[("old", "1")], false⟩).2.1 (by decide) 500 [("x", "1")] rfl
      (by decide),
    (c9_login_failure_atomic none ⟨[("old", "1")], false⟩).2.2 (by decide)
      rfl⟩

/-- C5 counterexample: a non-transport (unexpected) exception during
forwarding produces a 502 response, not the claimed 500 — the handler at
lines 237-239 catches bare `Exception` and always answers 502. -/
theorem c5_counterexample :
    (proxy ⟨none, none, Except.error ⟨false, "KeyError"⟩⟩ [] []
        ⟨[], false⟩).response.status = 502 ∧
    ¬ (proxy ⟨none, none, Except.error ⟨false, "KeyError"⟩⟩ [] []
        ⟨[], false⟩).response.status = 500 := by
  decide

/-- C5 (amended): every error raised during request forwarding that is
not a transport failure is answered with HTTP 502 (not 500) and the
`Proxy error:` body, exactly like a transport failure. -/
theorem c5_unexpected_error_status (env : Upstream)
    (reqHeaders incoming : Dict) (st : RelayState) (e : FwdError)
    (_he : e.transport = false) (hfwd : env.fwd = Except.error e) :
    (proxy env reqHeaders incoming st).response.status = 502 ∧
    (proxy env reqHeaders incoming st).response.body =
      "Proxy error: " ++ e.msg := by
  rw [proxy_response_of_error env reqHeaders incoming st e hfwd]
  exact ⟨rfl, rfl⟩

/-- Witness for C5 (amended): a concrete unexpected error is answered
with 502 and its message. -/
theorem c5_unexpected_error_status_witness :
    (proxy ⟨none, none, Except.error ⟨false, "KeyError"⟩⟩ [] []
        ⟨[], false⟩).response.status = 502 ∧
    (proxy ⟨none, none, Except.error ⟨false, "KeyError"⟩⟩ [] []
        ⟨[], false⟩).response.body = "Proxy error: " ++ "KeyError" :=
  c5_unexpected_error_status ⟨none, none, Except.error ⟨false, "KeyError"⟩⟩
    [] [] ⟨[], false⟩ ⟨false, "KeyError"⟩ rfl rfl

theorem charsContain_of_isPrefixOf (s pat : List Char)
    (h : pat.isPrefixOf s = true) : charsContain s pat = true := by
  cases s with
  | nil =>
    cases pat with
    | nil => rfl
    | cons a l => simp [List.isPrefixOf] at h
  | cons a l => simp [charsContain, h]

/-- C6: a transport failure while forwarding is answered with HTTP 502
and the body `Proxy error: ` followed by the transport error message (so
the body contains the substring `Proxy error`); the exception is caught,
so the relay still produces a response instead of crashing. -/
theorem c6_transport_error_502 (env : Upstream)
    (reqHeaders incoming : Dict) (st : RelayState) (e : FwdError)
    (_he : e.transport = true) (hfwd : env.fwd = Except.error e) :
    (proxy env reqHeaders incoming st).response.status = 502 ∧
    (proxy env reqHeaders incoming st).response.body =
      "Proxy error: " ++ e.msg ∧
    strContains (proxy env reqHeaders incoming st).response.body
      "Proxy error" = true := by
  rw [proxy_response_of_error env reqHeaders incoming st e hfwd]
  refine ⟨rfl, rfl, ?_⟩
  apply charsContain_of_isPrefixOf
  rw [List.isPrefixOf_iff_prefix]
  have h1 : ("Proxy error: " ++ e.msg).data =
      "Proxy error".data ++ (": ".data ++ e.msg.data) := by
    have h2 : "Proxy error: ".data = "Proxy error".data ++ ": ".data := by
      decide
    show "Proxy error: ".data ++ e.msg.data = _
    rw [h2, List.append_assoc]
  rw [h1]
  exact List.prefix_append _ _

/-- Witness for C6: a concrete connection-refused transport error yields
status 502 and a `Proxy error` body. -/
theorem c6_transport_error_502_witness :
    (proxy ⟨none, none, Except.error ⟨true, "conn refused"⟩⟩ [] []
        ⟨[], false⟩).response.status = 502 ∧
    (proxy ⟨none, none, Except.error ⟨true, "conn refused"⟩⟩ [] []
        ⟨[], false⟩).response.body = "Proxy error: " ++ "conn refused" ∧
    strContains (proxy ⟨none, none, Except.error ⟨true, "conn refused"⟩⟩
        [] [] ⟨[], false⟩).response.body "Proxy error" = true :=
  c6_transport_error_502 ⟨none, none, Except.error ⟨true, "conn refused"⟩⟩
    [] [] ⟨[], false⟩ ⟨true, "conn refused"⟩ rfl rfl

theorem Dict.mem_insert (d : Dict) (k v : String) :
    ∀ kv ∈ Dict.insert d k v, kv ∈ d ∨ kv = (k, v) := by
  induction d with
  | nil =>
    intro kv h
    simp only [Dict.insert, List.mem_singleton] at h
    exact Or.inr h
  | cons a t ih =>
    intro kv h
    by_cases hc : (a.1 == k) = true
    · simp only [Dict.insert, hc, if_true] at h
      rcases List.mem_cons.mp h with h1 | h1
      · exact Or.inr h1
      · exact Or.inl (List.mem_cons_of_mem _ h1)
    · simp only [Dict.insert, hc, if_false] at h
      rcases List.mem_cons.mp h with h1 | h1
      · exact Or.inl (h1 ▸ List.mem_cons_self _ _)
      · rcases ih kv h1 with h2 | h2
        · exact Or.inl (List.mem_cons_of_mem _ h2)
        · exact Or.inr h2

theorem not_mem_of_contains_eq_false {α : Type} [BEq α] [LawfulBEq α]
    {l : List α} {a : α} (h : l.contains a = false) : a ∉ l := by
  intro hmem
  have hc : l.contains a = true := List.elem_iff.mpr hmem
  rw [h] at hc
  cases hc

/-- C7: the outbound request carries no `Host`, `Connection` or
`Content-Length` header copied from the caller (the only header added,
`Cookie`, is none of them), and a relayed upstream response carries no
`Content-Encoding`, `Transfer-Encoding`, `Content-Length` or
`Connection` header copied from upstream — all compared
case-insensitively via the header name's lowercase form. -/
theorem c7_header_stripping (env : Upstream) (reqHeaders incoming : Dict)
    (st : RelayState) :
    (∀ kv ∈ (proxy env reqHeaders incoming st).outboundHeaders,
      ¬ lowerChars kv.1 ∈ banned_request_headers) ∧
    (∀ resp, env.fwd = Except.ok resp →
      ∀ kv ∈ (proxy env reqHeaders incoming st).response.headers,
        ¬ lowerChars kv.1 ∈ banned_response_headers) := by
  constructor
  · intro kv hmem
    rw [proxy_outboundHeaders] at hmem
    unfold outbound_headers at hmem
    by_cases hch :
      (cookie_header (proxy_auth_phase env incoming st).2.1 == "") = true
    · rw [if_pos hch] at hmem
      have hp := (List.mem_filter.mp hmem).2
      simp only [Bool.not_eq_eq_eq_not, Bool.not_true] at hp
      exact not_mem_of_contains_eq_false hp
    · rw [if_neg hch] at hmem
      rcases Dict.mem_insert _ _ _ kv hmem with h1 | h1
      · have hp := (List.mem_filter.mp h1).2
        simp only [Bool.not_eq_eq_eq_not, Bool.not_true] at hp
        exact not_mem_of_contains_eq_false hp
      · rw [h1]
        exact (by decide : ¬ lowerChars "Cookie" ∈ banned_request_headers)
  · intro resp hfwd kv hmem
    rw [proxy_response_of_ok env reqHeaders incoming st resp hfwd] at hmem
    have hp := (List.mem_filter.mp hmem).2
    simp only [Bool.not_eq_eq_eq_not, Bool.not_true] at hp
    exact not_mem_of_contains_eq_false hp

/-- Witness for C7: a custom request header survives the outbound
filter yet is not hop-by-hop, and a relayed `Content-Type` header is not
one of the stripped response headers. -/
theorem c7_header_stripping_witness :
    ¬ lowerChars "X-Custom" ∈ banned_request_headers ∧
    ¬ lowerChars "Content-Type" ∈ banned_response_headers := by
  have h := c7_header_stripping
    ⟨none, none, Except.ok ⟨200, [("Content-Type", "text/html")], [], ""⟩⟩
    [("X-Custom", "1"), ("Host", "x")] [] ⟨[], false⟩
  exact ⟨h.1 ("X-Custom", "1") (by decide),
    h.2 ⟨200, [("Content-Type", "text/html")], [], ""⟩ rfl
      ("Content-Type", "text/html") (by decide)⟩

theorem proxy_auth_phase_fst (env : Upstream) (incoming : Dict)
    (st : RelayState) :
    (proxy_auth_phase env incoming st).1 =
      (check_authentication env.meStatus incoming).1 := by
  by_cases h : (check_authentication env.meStatus incoming).1 = true
  · rw [proxy_auth_phase_of_auth env incoming st h, h]
  · have h' : (check_authentication env.meStatus incoming).1 = false := by
      simpa using h
    cases hl : (auto_login env.loginResp st).1 with
    | none => rw [proxy_auth_phase_of_unauth_none env incoming st h' hl, h']
    | some c =>
      rw [proxy_auth_phase_of_unauth_some env incoming st c h' hl, h']

/-- C10: on a successful forward for a caller judged unauthenticated,
the relay additionally sets — with `SameSite=Lax` — every cookie of the
session cache whose name the upstream response did not itself set (so
cached login cookies reach the caller even when upstream set no cookies
at all), while for an authenticated caller the set-cookies are exactly
the upstream response's own cookies and nothing more. -/
theorem c10_extra_cookies (env : Upstream) (reqHeaders incoming : Dict)
    (st : RelayState) (resp : UpstreamResp)
    (hfwd : env.fwd = Except.ok resp) :
    ((check_authentication env.meStatus incoming).1 = false →
      ∀ kv ∈ (proxy env reqHeaders incoming st).state.session_cookies,
        (∀ c ∈ resp.cookies, ¬ c.1 = kv.1) →
        SetCookie.mk kv.1 kv.2 "Lax" ∈
          (proxy env reqHeaders incoming st).response.setCookies) ∧
    ((check_authentication env.meStatus incoming).1 = true →
      (proxy env reqHeaders incoming st).response.setCookies =
        resp.cookies.map (fun c => SetCookie.mk c.1 c.2 "Lax")) := by
  constructor
  · intro hauth kv hmem hnores
    rw [proxy_response_of_ok env reqHeaders incoming st resp hfwd]
    have hphase : (!(proxy_auth_phase env incoming st).1) = true := by
      rw [proxy_auth_phase_fst, hauth]
      rfl
    have hne :
        ((proxy env reqHeaders incoming st).state.session_cookies).isEmpty
          = false := by
      cases hsc : (proxy env reqHeaders incoming st).state.session_cookies
      with
      | nil => rw [hsc] at hmem; cases hmem
      | cons a l => rfl
    have hcond : (!(proxy_auth_phase env incoming st).1 &&
        !((proxy env reqHeaders incoming st).state.session_cookies).isEmpty)
        = true := by
      rw [hphase, hne]
      rfl
    show SetCookie.mk kv.1 kv.2 "Lax" ∈ _ ++ _
    rw [hcond, if_pos rfl]
    refine List.mem_append.mpr (Or.inr ?_)
    refine List.mem_map.mpr ⟨kv, List.mem_filter.mpr ⟨hmem, ?_⟩, rfl⟩
    have hnc : ((resp.cookies.map (fun c => c.1)).contains kv.1) = false := by
      by_cases hcm : kv.1 ∈ resp.cookies.map (fun c => c.1)
      · obtain ⟨c, hcmem, hceq⟩ := List.mem_map.mp hcm
        exact absurd hceq (hnores c hcmem)
      · by_cases hb : ((resp.cookies.map (fun c => c.1)).contains kv.1)
          = true
        · exact absurd (List.elem_iff.mp hb) hcm
        · simpa using hb
    rw [hnc]
    rfl
  · intro hauth
    rw [proxy_response_of_ok env reqHeaders incoming st resp hfwd]
    have hphase : (!(proxy_auth_phase env incoming st).1) = false := by
      rw [proxy_auth_phase_fst, hauth]
      rfl
    show _ ++ _ = _
    rw [hphase]
    simp only [Bool.false_and, Bool.false_eq_true, if_false,
      List.append_nil]

/-- Witness for C10: with an empty-cookie upstream response, an
unauthenticated caller is sent the cached login cookie with
`SameSite=Lax`; an authenticated caller gets only the upstream cookies. -/
theorem c10_extra_cookies_witness :
    SetCookie.mk "n8n-auth" "tok" "Lax" ∈
      (proxy ⟨none, some (200, [("n8n-auth", "tok")]),
          Except.ok ⟨200, [], [], "ok"⟩⟩ [] []
        ⟨[], false⟩).response.setCookies ∧
    (proxy ⟨some 200, none, Except.ok ⟨200, [], [("sid", "1")], "ok"⟩⟩ []
        [("n8n-auth", "x")] ⟨[], true⟩).response.setCookies =
      [("sid", "1")].map (fun c => SetCookie.mk c.1 c.2 "Lax") := by
  constructor
  · exact (c10_extra_cookies ⟨none, some (200, [("n8n-auth", "tok")]),
        Except.ok ⟨200, [], [], "ok"⟩⟩ [] [] ⟨[], false⟩
        ⟨200, [], [], "ok"⟩ rfl).1 (by decide) ("n8n-auth", "tok")
      (by decide) (by decide)
  · exact (c10_extra_cookies
        ⟨some 200, none, Except.ok ⟨200, [], [("sid", "1")], "ok"⟩⟩ []
        [("n8n-auth", "x")] ⟨[], true⟩ ⟨200, [], [("sid", "1")], "ok"⟩
        rfl).2 (by decide)

/-! Helper lemmas for the `wait_for_n8n` retry loop. -/

theorem wait_loop_attempts_le (o : HealthOracle) (m : Nat) :
    ∀ (fuel i : Nat), (wait_loop o m fuel i).2.1 ≤ fuel := by
  intro fuel
  induction fuel with
  | zero => intro i; exact Nat.le_refl 0
  | succ n ih =>
    intro i
    by_cases h : o i = some 200
    · simp only [wait_loop, if_pos h]
      omega
    · simp only [wait_loop, if_neg h]
      have := ih (i + 1)
      omega

theorem wait_loop_true_iff (o : HealthOracle) (m : Nat) :
    ∀ (fuel i : Nat), (wait_loop o m fuel i).1 = true ↔
      ∃ j, i ≤ j ∧ j < i + fuel ∧ o j = some 200 := by
  intro fuel
  induction fuel with
  | zero =>
    intro i
    constructor
    · intro h
      cases h
    · rintro ⟨j, h1, h2, _⟩
      omega
  | succ n ih =>
    intro i
    by_cases hi : o i = some 200
    · simp only [wait_loop, if_pos hi]
      exact ⟨fun _ => ⟨i, Nat.le_refl i, by omega, hi⟩, fun _ => by trivial⟩
    · simp only [wait_loop, if_neg hi]
      rw [ih (i + 1)]
      constructor
      · rintro ⟨j, h1, h2, h3⟩
        exact ⟨j, by omega, by omega, h3⟩
      · rintro ⟨j, h1, h2, h3⟩
        refine ⟨j, ?_, by omega, h3⟩
        rcases Nat.eq_or_lt_of_le h1 with he | hl
        · exact absurd (he ▸ h3) hi
        · omega

theorem wait_loop_first_success (o : HealthOracle) (m : Nat) :
    ∀ (fuel i j : Nat), i ≤ j → j < i + fuel → j + 1 ≤ m →
      o j = some 200 → (∀ k, i ≤ k → k < j → ¬ o k = some 200) →
      wait_loop o m fuel i = (true, j - i + 1, 2 * (j - i)) := by
  intro fuel
  induction fuel with
  | zero =>
    intro i j hij hlt _ _ _
    omega
  | succ n ih =>
    intro i j hij hlt hm hj hfirst
    by_cases hi : o i = some 200
    · have hieq : i = j := by
        by_contra hne
        exact hfirst i (Nat.le_refl i) (by omega) hi
      subst hieq
      simp only [wait_loop, if_pos hi, Nat.sub_self]
    · have hne : ¬ i = j := fun h => hi (h ▸ hj)
      have hltij : i < j := by omega
      have hrest := ih (i + 1) j (by omega) (by omega) hm hj
        (fun k hk1 hk2 => hfirst k (by omega) hk2)
      have hsleep : i < m - 1 := by omega
      simp only [wait_loop, if_neg hi, hrest, if_pos hsleep,
        Prod.mk.injEq]
      refine ⟨by trivial, by omega, by omega⟩

theorem wait_loop_all_fail (o : HealthOracle) (m : Nat) :
    ∀ (fuel i : Nat), i + fuel = m →
      (∀ k, i ≤ k → k < m → ¬ o k = some 200) →
      wait_loop o m fuel i = (false, fuel, 2 * (fuel - 1)) := by
  intro fuel
  induction fuel with
  | zero => intro i _ _; rfl
  | succ n ih =>
    intro i him hfail
    have hi : ¬ o i = some 200 := hfail i (Nat.le_refl i) (by omega)
    have hrest := ih (i + 1) (by omega)
      (fun k hk1 hk2 => hfail k (by omega) hk2)
    simp only [wait_loop, if_neg hi, hrest]
    by_cases hs : i < m - 1
    · rw [if_pos hs]
      simp only [Prod.mk.injEq]
      refine ⟨by trivial, by trivial, by omega⟩
    · rw [if_neg hs]
      simp only [Prod.mk.injEq]
      refine ⟨by trivial, by trivial, by omega⟩

/-- C8: `wait_for_n8n` issues `GET {base_url}/healthz` at most 30 times,
sleeping 2 seconds after each failed attempt but the last (so the first
success at attempt index `j` costs `j + 1` requests and `2 * j` seconds
of waiting), returns true as soon as an attempt yields HTTP 200, returns
false after all 30 attempts fail (having slept 58 seconds), and the
`__main__` block runs it before starting the relay server. -/
theorem c8_wait_for_n8n (o : HealthOracle) :
    (wait_for_n8n o).2.1 ≤ 30 ∧
    ((wait_for_n8n o).1 = true ↔ ∃ j, j < 30 ∧ o j = some 200) ∧
    (∀ j, j < 30 → o j = some 200 →
      (∀ k, k < j → ¬ o k = some 200) →
      wait_for_n8n o = (true, j + 1, 2 * j)) ∧
    ((∀ k, k < 30 → ¬ o k = some 200) →
      wait_for_n8n o = (false, 30, 58)) ∧
    main_steps.indexOf MainStep.waitForN8n <
      main_steps.indexOf MainStep.runServer := by
  refine ⟨wait_loop_attempts_le o 30 30 0, ?_, ?_, ?_, by decide⟩
  · rw [wait_for_n8n, wait_loop_true_iff o 30 30 0]
    constructor
    · rintro ⟨j, _, h2, h3⟩
      exact ⟨j, by omega, h3⟩
    · rintro ⟨j, h1, h2⟩
      exact ⟨j, by omega, by omega, h2⟩
  · intro j hj hjs hfirst
    have h := wait_loop_first_success o 30 30 0 j (by omega) (by omega)
      (by omega) hjs (fun k _ hk2 => hfirst k hk2)
    rw [wait_for_n8n, h]
    simp
  · intro hfail
    have h := wait_loop_all_fail o 30 30 0 (by omega)
      (fun k _ hk2 => hfail k hk2)
    rw [wait_for_n8n, h]

/-- Witness for C8: an upstream that first answers 200 on the fourth
poll makes `wait_for_n8n` return true after 4 attempts and 6 seconds of
waiting; one that never answers 200 exhausts the 30 attempts with 58
seconds of waiting and returns false. -/
theorem c8_wait_for_n8n_witness :
    wait_for_n8n (fun i => if i = 3 then some 200 else some 503) =
      (true, 4, 6) ∧
    wait_for_n8n (fun _ => none) = (false, 30, 58) := by
  constructor
  · have h := (c8_wait_for_n8n
        (fun i => if i = 3 then some 200 else some 503)).2.2.1 3
      (by decide) (by decide) (by decide)
    exact h
  · exact (c8_wait_for_n8n (fun _ => none)).2.2.2.1 (by decide)

end AutoLogin
